import Mathlib

/-!
Verification of the Thermal Decay Simulator (Newton's Law of Cooling GUI).

The domain logic of `src/main.py` is embedded shallowly:

* `compute_and_plot` (lines 82-131): parses the five entry fields, validates
  `npts >= 2` and `t_max > 0`, then computes `t = np.linspace(0, t_max, npts)`
  and `T = T_env + (T0 - T_env) * np.exp(-k * t)` and stores the result in
  `app_state`.  Machine floats are modelled by real numbers; `np.linspace`
  over `[0, t_max]` with `n` points is the map `i ↦ t_max * i / (n - 1)`.
* `save_csv` (lines 133-149): guarded CSV export of the stored samples.
* `load_next_example` (lines 151-172) together with the module-global
  `current_example_index` (line 71): the round-robin preset cycler.
-/

namespace ThermalDecay

/-- The `i`-th element of `np.linspace(0, t_max, npts)` (line 99 of the
source): `t_i = t_max * i / (npts - 1)`, subtraction on the integer `npts`. -/
noncomputable def tSample (t_max : ℝ) (n : ℕ) (i : ℕ) : ℝ :=
  t_max * i / ((n - 1 : ℕ) : ℝ)

/-- The temperature formula of line 100 of the source evaluated at time `t`:
`T_env + (T0 - T_env) * exp(-k * t)`. -/
noncomputable def Tval (T0 T_env k t : ℝ) : ℝ :=
  T_env + (T0 - T_env) * Real.exp (-k * t)

/-- The ordered sample sequence produced by lines 99-100 of the source:
for each `i < n` the pair `(t_i, T_env + (T0 - T_env) * exp(-k * t_i))`. -/
noncomputable def samplePairs (T0 T_env k t_max : ℝ) (n : ℕ) : List (ℝ × ℝ) :=
  (List.range n).map fun i => (tSample t_max n i, Tval T0 T_env k (tSample t_max n i))

/-- The validated evaluation of lines 91-92 and 99-100 of the source: reject
`npts < 2` (message of line 91) and `t_max <= 0` (message of line 92), in that
order, and otherwise return the sample sequence. -/
noncomputable def evaluate (T0 T_env k t_max : ℝ) (n : ℕ) :
    Except String (List (ℝ × ℝ)) :=
  if n < 2 then .error "Points must be > 1"
  else if t_max ≤ 0 then .error "Max time must be positive"
  else .ok (samplePairs T0 T_env k t_max n)

-- Basic facts about the sample sequence.

theorem samplePairs_length (T0 T_env k t_max : ℝ) (n : ℕ) :
    (samplePairs T0 T_env k t_max n).length = n := by
  simp [samplePairs]

theorem samplePairs_getElem? (T0 T_env k t_max : ℝ) (n i : ℕ) (hi : i < n) :
    (samplePairs T0 T_env k t_max n)[i]? =
      some (tSample t_max n i, Tval T0 T_env k (tSample t_max n i)) := by
  simp [samplePairs, List.getElem?_map, List.getElem?_range, hi]

theorem evaluate_ok (T0 T_env k t_max : ℝ) (n : ℕ) (hn : 2 ≤ n) (ht : 0 < t_max) :
    evaluate T0 T_env k t_max n = .ok (samplePairs T0 T_env k t_max n) := by
  simp [evaluate, Nat.not_lt.mpr hn, not_le.mpr ht]

theorem tSample_zero (t_max : ℝ) (n : ℕ) : tSample t_max n 0 = 0 := by
  simp [tSample]

theorem tSample_last (t_max : ℝ) (n : ℕ) (hn : 2 ≤ n) :
    tSample t_max n (n - 1) = t_max := by
  have h0 : ((n - 1 : ℕ) : ℝ) ≠ 0 := Nat.cast_ne_zero.mpr (by omega)
  rw [tSample, mul_div_assoc, div_self h0, mul_one]

theorem tSample_strictMono (t_max : ℝ) (n : ℕ) (ht : 0 < t_max) (hn : 2 ≤ n)
    (i j : ℕ) (hij : i < j) : tSample t_max n i < tSample t_max n j := by
  have hden : (0 : ℝ) < ((n - 1 : ℕ) : ℝ) := Nat.cast_pos.mpr (by omega)
  have hnum : t_max * (i : ℝ) < t_max * (j : ℝ) := by
    have : (i : ℝ) < (j : ℝ) := by exact_mod_cast hij
    exact mul_lt_mul_of_pos_left this ht
  exact div_lt_div_of_pos_right hnum hden

theorem tSample_nonneg (t_max : ℝ) (n : ℕ) (ht : 0 < t_max) (i : ℕ) :
    0 ≤ tSample t_max n i := by
  apply div_nonneg
  · positivity
  · positivity

theorem Tval_strictAnti (T0 T_env k : ℝ) (hk : 0 < k) (hT : T_env < T0)
    (t t' : ℝ) (htt : t < t') : Tval T0 T_env k t' < Tval T0 T_env k t := by
  unfold Tval
  have hexp : Real.exp (-k * t') < Real.exp (-k * t) := by
    apply Real.exp_lt_exp.mpr
    nlinarith
  have hpos : 0 < T0 - T_env := by linarith
  nlinarith

theorem Tval_strictMonoWarm (T0 T_env k : ℝ) (hk : 0 < k) (hT : T0 < T_env)
    (t t' : ℝ) (htt : t < t') : Tval T0 T_env k t < Tval T0 T_env k t' := by
  unfold Tval
  have hexp : Real.exp (-k * t') < Real.exp (-k * t) := by
    apply Real.exp_lt_exp.mpr
    nlinarith
  have hneg : T0 - T_env < 0 := by linarith
  nlinarith

theorem Tval_of_eq_env (T_env k t : ℝ) : Tval T_env T_env k t = T_env := by
  simp [Tval]

theorem Tval_k_zero (T0 T_env t : ℝ) : Tval T0 T_env 0 t = T0 := by
  simp [Tval]

theorem Tval_sub_env (T0 T_env k t : ℝ) :
    Tval T0 T_env k t - T_env = (T0 - T_env) * Real.exp (-k * t) := by
  simp [Tval]

/-- A discriminator for the outcome of a fallible operation. -/
def isOk {ε α : Type} : Except ε α → Bool
  | .ok _ => true
  | .error _ => false

/-- C1: for every valid input (t_max > 0, n >= 2), the evaluation succeeds and
the temperature at each sample index i is T_env + (T0 - T_env) * exp(-k * t_i),
where t_i is the i-th time sample. -/
theorem claim_C1 (T0 T_env k t_max : ℝ) (n i : ℕ) (hn : 2 ≤ n) (ht : 0 < t_max)
    (hi : i < n) :
    evaluate T0 T_env k t_max n = .ok (samplePairs T0 T_env k t_max n) ∧
    (samplePairs T0 T_env k t_max n)[i]? =
      some (tSample t_max n i,
        T_env + (T0 - T_env) * Real.exp (-k * tSample t_max n i)) :=
  ⟨evaluate_ok T0 T_env k t_max n hn ht, samplePairs_getElem? T0 T_env k t_max n i hi⟩

/-- Witness for C1 at the Hot Coffee parameters with n = 2, i = 1. -/
theorem claim_C1_witness :
    (2 ≤ 2) ∧ ((0:ℝ) < 60) ∧ (1 < 2) ∧
    (evaluate 90 25 (7/100) 60 2 = .ok (samplePairs 90 25 (7/100) 60 2) ∧
     (samplePairs 90 25 (7/100) 60 2)[1]? =
       some (tSample 60 2 1,
         25 + (90 - 25) * Real.exp (-(7/100) * tSample 60 2 1))) :=
  ⟨by norm_num, by norm_num, by norm_num,
   claim_C1 90 25 (7/100) 60 2 1 (by norm_num) (by norm_num) (by norm_num)⟩

/-- C2: for every valid input, the returned sequence has exactly n elements,
the i-th time sample is t_max * i / (n - 1), the first time sample is 0 and
the last is t_max. -/
theorem claim_C2 (T0 T_env k t_max : ℝ) (n i : ℕ) (hn : 2 ≤ n) (ht : 0 < t_max)
    (hi : i < n) :
    evaluate T0 T_env k t_max n = .ok (samplePairs T0 T_env k t_max n) ∧
    (samplePairs T0 T_env k t_max n).length = n ∧
    ((samplePairs T0 T_env k t_max n)[i]?).map Prod.fst =
      some (t_max * i / ((n - 1 : ℕ) : ℝ)) ∧
    ((samplePairs T0 T_env k t_max n)[0]?).map Prod.fst = some 0 ∧
    ((samplePairs T0 T_env k t_max n)[n - 1]?).map Prod.fst = some t_max := by
  refine ⟨evaluate_ok T0 T_env k t_max n hn ht, samplePairs_length T0 T_env k t_max n,
    ?_, ?_, ?_⟩
  · rw [samplePairs_getElem? T0 T_env k t_max n i hi]
    rfl
  · rw [samplePairs_getElem? T0 T_env k t_max n 0 (by omega)]
    simp [tSample_zero]
  · rw [samplePairs_getElem? T0 T_env k t_max n (n - 1) (by omega)]
    simp [tSample_last t_max n hn]

/-- Witness for C2 at the Hot Coffee parameters with n = 2, i = 1. -/
theorem claim_C2_witness :
    (2 ≤ 2) ∧ ((0:ℝ) < 60) ∧ (1 < 2) ∧
    (evaluate 90 25 (7/100) 60 2 = .ok (samplePairs 90 25 (7/100) 60 2) ∧
     (samplePairs 90 25 (7/100) 60 2).length = 2 ∧
     ((samplePairs 90 25 (7/100) 60 2)[1]?).map Prod.fst =
       some (60 * (1:ℕ) / (((2:ℕ) - 1 : ℕ) : ℝ)) ∧
     ((samplePairs 90 25 (7/100) 60 2)[0]?).map Prod.fst = some 0 ∧
     ((samplePairs 90 25 (7/100) 60 2)[2 - 1]?).map Prod.fst = some 60) :=
  ⟨by norm_num, by norm_num, by norm_num,
   claim_C2 90 25 (7/100) 60 2 1 (by norm_num) (by norm_num) (by norm_num)⟩

/-- C3: the evaluation fails with the error message naming the violated
constraint exactly when a precondition is violated (n < 2, or else
t_max <= 0), and succeeds for every input with n >= 2 and t_max > 0. -/
theorem claim_C3 (T0 T_env k t_max : ℝ) (n : ℕ) :
    (isOk (evaluate T0 T_env k t_max n) = true ↔ (2 ≤ n ∧ 0 < t_max)) ∧
    (n < 2 → evaluate T0 T_env k t_max n = .error "Points must be > 1") ∧
    (2 ≤ n → t_max ≤ 0 →
      evaluate T0 T_env k t_max n = .error "Max time must be positive") := by
  refine ⟨?_, ?_, ?_⟩
  · constructor
    · intro h
      by_contra hc
      push_neg at hc
      rcases Nat.lt_or_ge n 2 with h2 | h2
      · simp [evaluate, h2, isOk] at h
      · have ht : t_max ≤ 0 := hc h2
        simp [evaluate, Nat.not_lt.mpr h2, ht, isOk] at h
    · rintro ⟨hn, ht⟩
      simp [evaluate, Nat.not_lt.mpr hn, not_le.mpr ht, isOk]
  · intro h2
    simp [evaluate, h2]
  · intro h2 ht
    simp [evaluate, Nat.not_lt.mpr h2, ht]

/-- Witness for C3: n = 1 and t_max = 0 fail with the respective messages,
and a valid input succeeds. -/
theorem claim_C3_witness :
    evaluate 90 25 (7/100) 60 1 = .error "Points must be > 1" ∧
    evaluate 90 25 (7/100) 0 2 = .error "Max time must be positive" ∧
    isOk (evaluate 90 25 (7/100) 60 2) = true :=
  ⟨(claim_C3 90 25 (7/100) 60 1).2.1 (by norm_num),
   (claim_C3 90 25 (7/100) 0 2).2.2 (by norm_num) (by norm_num),
   (claim_C3 90 25 (7/100) 60 2).1.mpr ⟨by norm_num, by norm_num⟩⟩

/-- C4: on valid inputs the computed sequence is strictly decreasing when
k > 0 and T0 > T_env, strictly increasing when k > 0 and T0 < T_env, and
constantly T_env when T0 = T_env; stated on consecutive sample values. -/
theorem claim_C4 (T0 T_env k t_max : ℝ) (n i : ℕ) (hn : 2 ≤ n) (ht : 0 < t_max)
    (hi : i + 1 < n) :
    evaluate T0 T_env k t_max n = .ok (samplePairs T0 T_env k t_max n) ∧
    (samplePairs T0 T_env k t_max n)[i]? =
      some (tSample t_max n i, Tval T0 T_env k (tSample t_max n i)) ∧
    (samplePairs T0 T_env k t_max n)[i + 1]? =
      some (tSample t_max n (i + 1), Tval T0 T_env k (tSample t_max n (i + 1))) ∧
    (0 < k → T_env < T0 →
      Tval T0 T_env k (tSample t_max n (i + 1)) < Tval T0 T_env k (tSample t_max n i)) ∧
    (0 < k → T0 < T_env →
      Tval T0 T_env k (tSample t_max n i) < Tval T0 T_env k (tSample t_max n (i + 1))) ∧
    (T0 = T_env →
      Tval T0 T_env k (tSample t_max n i) = T_env ∧
      Tval T0 T_env k (tSample t_max n (i + 1)) = T_env) := by
  have hstep := tSample_strictMono t_max n ht hn i (i + 1) (Nat.lt_succ_self i)
  refine ⟨evaluate_ok T0 T_env k t_max n hn ht,
    samplePairs_getElem? T0 T_env k t_max n i (by omega),
    samplePairs_getElem? T0 T_env k t_max n (i + 1) hi, ?_, ?_, ?_⟩
  · intro hk hT
    exact Tval_strictAnti T0 T_env k hk hT _ _ hstep
  · intro hk hT
    exact Tval_strictMonoWarm T0 T_env k hk hT _ _ hstep
  · intro hEq
    subst hEq
    exact ⟨Tval_of_eq_env _ k _, Tval_of_eq_env _ k _⟩

/-- Witness for C4 at the Hot Coffee parameters: the cooling branch at
n = 3, i = 0 gives a strict decrease between the first two samples. -/
theorem claim_C4_witness :
    Tval 90 25 (7/100) (tSample 60 3 (0 + 1)) < Tval 90 25 (7/100) (tSample 60 3 0) :=
  (claim_C4 90 25 (7/100) 60 3 0 (by norm_num) (by norm_num) (by norm_num)).2.2.2.1
    (by norm_num) (by norm_num)

/-- C5: k = 0 is accepted on valid inputs and every temperature sample
equals T0. -/
theorem claim_C5 (T0 T_env t_max : ℝ) (n i : ℕ) (hn : 2 ≤ n) (ht : 0 < t_max)
    (hi : i < n) :
    evaluate T0 T_env 0 t_max n = .ok (samplePairs T0 T_env 0 t_max n) ∧
    (samplePairs T0 T_env 0 t_max n)[i]? = some (tSample t_max n i, T0) := by
  refine ⟨evaluate_ok T0 T_env 0 t_max n hn ht, ?_⟩
  rw [samplePairs_getElem? T0 T_env 0 t_max n i hi, Tval_k_zero]

/-- Witness for C5 at T0 = 90, T_env = 25, t_max = 60, n = 2, i = 1. -/
theorem claim_C5_witness :
    (2 ≤ 2) ∧ ((0:ℝ) < 60) ∧ (1 < 2) ∧
    (evaluate 90 25 0 60 2 = .ok (samplePairs 90 25 0 60 2) ∧
     (samplePairs 90 25 0 60 2)[1]? = some (tSample 60 2 1, 90)) :=
  ⟨by norm_num, by norm_num, by norm_num,
   claim_C5 90 25 60 2 1 (by norm_num) (by norm_num) (by norm_num)⟩

/-- C7 fails as stated: at T0 = T_env = 25, k = 1, t_max = 1, n = 2 (a valid
input with k > 0) the first and last samples are both exactly 25, so the last
is not strictly closer to the ambient temperature than the first. -/
theorem claim_C7_counterexample :
    (2 ≤ 2) ∧ ((0:ℝ) < 1) ∧ ((0:ℝ) < 1) ∧
    evaluate 25 25 1 1 2 = .ok (samplePairs 25 25 1 1 2) ∧
    (samplePairs 25 25 1 1 2).map Prod.snd = [25, 25] ∧
    ¬ (|(25:ℝ) - 25| < |(25:ℝ) - 25|) := by
  refine ⟨by norm_num, by norm_num, by norm_num,
    evaluate_ok 25 25 1 1 2 (by norm_num) (by norm_num), ?_, by norm_num⟩
  simp [samplePairs, List.range_succ, Tval_of_eq_env]

/-- C7 amended: for every valid input with k > 0 and T0 ≠ T_env, the last
sample is strictly closer to the ambient temperature than the first:
the first sample is (0, T(0)), the last is (t_max, T(t_max)), and
|T(t_max) - T_env| < |T(0) - T_env|. -/
theorem claim_C7 (T0 T_env k t_max : ℝ) (n : ℕ) (hn : 2 ≤ n) (ht : 0 < t_max)
    (hk : 0 < k) (hne : T0 ≠ T_env) :
    evaluate T0 T_env k t_max n = .ok (samplePairs T0 T_env k t_max n) ∧
    (samplePairs T0 T_env k t_max n)[0]? = some (0, Tval T0 T_env k 0) ∧
    (samplePairs T0 T_env k t_max n)[n - 1]? = some (t_max, Tval T0 T_env k t_max) ∧
    |Tval T0 T_env k t_max - T_env| < |Tval T0 T_env k 0 - T_env| := by
  refine ⟨evaluate_ok T0 T_env k t_max n hn ht, ?_, ?_, ?_⟩
  · rw [samplePairs_getElem? T0 T_env k t_max n 0 (by omega), tSample_zero]
  · rw [samplePairs_getElem? T0 T_env k t_max n (n - 1) (by omega),
      tSample_last t_max n hn]
  · rw [Tval_sub_env, Tval_sub_env]
    rw [abs_mul, abs_mul]
    have habs : 0 < |T0 - T_env| := abs_pos.mpr (sub_ne_zero.mpr hne)
    have h0 : Real.exp (-k * 0) = 1 := by norm_num
    rw [h0, abs_one, mul_one]
    have hlt : Real.exp (-k * t_max) < 1 := by
      apply Real.exp_lt_one_iff.mpr
      nlinarith
    have hpos : 0 < Real.exp (-k * t_max) := Real.exp_pos _
    rw [abs_of_pos hpos]
    exact mul_lt_of_lt_one_right habs hlt |>.trans_le (le_of_eq rfl)

/-- Witness for the amended C7 at the Hot Coffee parameters with n = 2. -/
theorem claim_C7_witness :
    (2 ≤ 2) ∧ ((0:ℝ) < 60) ∧ ((0:ℝ) < 7/100) ∧ ((90:ℝ) ≠ 25) ∧
    (evaluate 90 25 (7/100) 60 2 = .ok (samplePairs 90 25 (7/100) 60 2) ∧
     (samplePairs 90 25 (7/100) 60 2)[0]? = some (0, Tval 90 25 (7/100) 0) ∧
     (samplePairs 90 25 (7/100) 60 2)[2 - 1]? = some (60, Tval 90 25 (7/100) 60) ∧
     |Tval 90 25 (7/100) 60 - 25| < |Tval 90 25 (7/100) 0 - 25|) :=
  ⟨by norm_num, by norm_num, by norm_num, by norm_num,
   claim_C7 90 25 (7/100) 60 2 (by norm_num) (by norm_num) (by norm_num) (by norm_num)⟩

/-!
The stateful shell around the evaluation (lines 82-96 and 129-131 of the
source).  The five text fields are modelled after the numeric parse: a field
holds `some x` when `float(text)` succeeds with value `x` and `none` when the
parse fails (the raw text itself carries no further behaviour).  `app_state`
and the status label are gathered in `AppState`; the stored `t` and `T` arrays
are modelled as the list of their zipped pairs, which is how `save_csv`
consumes them.
-/

/-- The five entry fields after the numeric parse of `validate_float`
(line 76): `none` models text that `float` rejects. -/
structure RawInputs where
  T0 : Option ℝ
  T_env : Option ℝ
  k : Option ℝ
  t_max : Option ℝ
  npts : Option ℝ

/-- The mutable application state touched by `compute_and_plot` and
`save_csv`: the stored result `app_state` (line 186, written at lines
130-131) and the status label text. -/
structure AppState where
  result : Option (List (ℝ × ℝ))
  status : String

/-- Line 76-80 of the source: return the parsed number, or fail with a
message naming the field (the `Got: {value}` suffix carries the raw text,
which this model does not track). -/
def validate_float (value : Option ℝ) (name : String) : Except String ℝ :=
  match value with
  | some x => .ok x
  | none => .error (name ++ " must be a number.")

/-- Python `int()` applied to a float: truncation toward zero (line 89). -/
noncomputable def pyInt (x : ℝ) : ℤ :=
  if 0 ≤ x then ⌊x⌋ else ⌈x⌉

/-- Lines 84-100 of the source as one fallible computation: parse the five
fields in order, truncate the point count, then validate and evaluate. -/
noncomputable def computeResult (inp : RawInputs) : Except String (List (ℝ × ℝ)) := do
  let T0 ← validate_float inp.T0 "T0"
  let T_env ← validate_float inp.T_env "T_env"
  let k ← validate_float inp.k "k"
  let t_max ← validate_float inp.t_max "t_max"
  let nptsF ← validate_float inp.npts "Points"
  evaluate T0 T_env k t_max (pyInt nptsF).toNat

/-- Lines 82-131 of the source: on any failure the handler of lines 94-96
sets the status label and returns, leaving `app_state` untouched; on success
lines 129-131 store the fresh result. -/
noncomputable def compute_and_plot (inp : RawInputs) (st : AppState) : AppState :=
  match computeResult inp with
  | .error e => { st with status := "Error: " ++ e }
  | .ok pairs => { st with result := some pairs, status := "Calculation complete." }

/-- C6: whenever the compute action fails (unparseable field, point count
below 2, or non-positive time bound), the stored result sequence is left
unchanged and only the status message is updated. -/
theorem claim_C6 (inp : RawInputs) (st : AppState) (e : String)
    (h : computeResult inp = .error e) :
    compute_and_plot inp st = { st with status := "Error: " ++ e } ∧
    (compute_and_plot inp st).result = st.result := by
  constructor
  · simp [compute_and_plot, h]
  · simp [compute_and_plot, h]

/-- Witness for C6: the point count 1 makes the computation fail while a
previously stored result survives unchanged. -/
theorem claim_C6_witness :
    computeResult ⟨some 90, some 25, some (7/100), some 60, some 1⟩ =
      .error "Points must be > 1" ∧
    compute_and_plot ⟨some 90, some 25, some (7/100), some 60, some 1⟩
        ⟨some [(0, 90)], "Ready"⟩ =
      { result := some [(0, 90)], status := "Error: Points must be > 1" } ∧
    (compute_and_plot ⟨some 90, some 25, some (7/100), some 60, some 1⟩
        ⟨some [(0, 90)], "Ready"⟩).result = some [(0, 90)] := by
  have h : computeResult ⟨some 90, some 25, some (7/100), some 60, some 1⟩ =
      .error "Points must be > 1" := by
    have hfloor : pyInt 1 = 1 := by
      simp [pyInt]
    simp [computeResult, validate_float, hfloor, evaluate, bind, Except.bind]
  have hmain := claim_C6 ⟨some 90, some 25, some (7/100), some 60, some 1⟩
    ⟨some [(0, 90)], "Ready"⟩ "Points must be > 1" h
  exact ⟨h, hmain.1, hmain.2⟩

/-!
The CSV export of `save_csv` (lines 133-149).  The file is modelled at the
row level, as the `csv.writer` receives it: a list of rows, each a list of
cells.  Number-to-text formatting is a parameter `render`, and the reverse
parse is a parameter `parse`; the round-trip property is stated relative to
`parse` inverting `render` on the exported values.
-/

/-- Lines 142-146 of the source: the header row `t, T(t)` followed by one
two-cell row per sample pair, in order, with nothing after the rows. -/
def writeRows (render : ℝ → String) (pairs : List (ℝ × ℝ)) : List (List String) :=
  ["t", "T(t)"] :: pairs.map fun p => [render p.1, render p.2]

/-- Reading back one exported data row: exactly two cells, both numeric. -/
def parseRow (parse : String → Option ℝ) : List String → Option (ℝ × ℝ)
  | [a, b] =>
    match parse a, parse b with
    | some x, some y => some (x, y)
    | _, _ => none
  | _ => none

/-- Reading back an exported file: drop the header row, parse every data
row. -/
def parseRows (parse : String → Option ℝ) : List (List String) → Option (List (ℝ × ℝ))
  | [] => none
  | _ :: rest => rest.mapM (parseRow parse)

/-- The observable outcome of one `save_csv` invocation: the new application
state, whether the save dialog was opened, and the rows written (if any). -/
structure SaveOutcome where
  state : AppState
  dialogOpened : Bool
  fileWritten : Option (List (List String))

/-- Lines 133-149 of the source: without a stored result, warn and return
before the dialog (lines 134-136); with a result, open the dialog
(line 138), return silently when it is cancelled (line 139), and otherwise
write the rows, reporting either success or the write failure
(lines 141-149). -/
def save_csv (render : ℝ → String) (pathChoice : Option String)
    (writeSucceeds : Bool) (st : AppState) : SaveOutcome :=
  match st.result with
  | none => ⟨{ st with status := "Run calculation first!" }, false, none⟩
  | some pairs =>
    match pathChoice with
    | none => ⟨st, true, none⟩
    | some path =>
      if writeSucceeds then
        ⟨{ st with status := "Saved to " ++ path }, true, some (writeRows render pairs)⟩
      else
        ⟨{ st with status := "Save Error" }, true, none⟩

theorem mapM_parseRow (render : ℝ → String) (parse : String → Option ℝ)
    (pairs : List (ℝ × ℝ))
    (hinv : ∀ p ∈ pairs, parse (render p.1) = some p.1 ∧ parse (render p.2) = some p.2) :
    (pairs.map fun p => [render p.1, render p.2]).mapM (parseRow parse) = some pairs := by
  induction pairs with
  | nil => rfl
  | cons p ps ih =>
    obtain ⟨h1, h2⟩ := hinv p (List.mem_cons_self p ps)
    have ihs := ih fun q hq => hinv q (List.mem_cons_of_mem p hq)
    simp only [List.map_cons, List.mapM_cons, parseRow, h1, h2, ihs]
    rfl

/-- C8: exporting a stored sequence writes the header row `t, T(t)` followed
by exactly one two-cell row per sample pair in sequence order and nothing
else, and parsing the written rows back (with a parse that inverts the
rendering of the exported values) returns exactly the stored pairs. -/
theorem claim_C8 (render : ℝ → String) (parse : String → Option ℝ)
    (path : String) (st : AppState) (pairs : List (ℝ × ℝ))
    (hres : st.result = some pairs)
    (hinv : ∀ p ∈ pairs, parse (render p.1) = some p.1 ∧ parse (render p.2) = some p.2) :
    (save_csv render (some path) true st).fileWritten = some (writeRows render pairs) ∧
    writeRows render pairs =
      ["t", "T(t)"] :: pairs.map (fun p => [render p.1, render p.2]) ∧
    (writeRows render pairs).length = pairs.length + 1 ∧
    parseRows parse (writeRows render pairs) = some pairs := by
  refine ⟨?_, rfl, ?_, ?_⟩
  · simp [save_csv, hres]
  · simp [writeRows]
  · simpa [parseRows, writeRows] using mapM_parseRow render parse pairs hinv

/-- A one-value rendering used to witness the export claims concretely. -/
def renderZero : ℝ → String := fun _ => "0"

/-- The matching one-value parse, inverting `renderZero` on the value 0. -/
def parseZero : String → Option ℝ := fun s => if s = "0" then some 0 else none

/-- Witness for C8 on the stored single pair (0, 0) with the one-value
rendering. -/
theorem claim_C8_witness :
    (AppState.mk (some [((0:ℝ), (0:ℝ))]) "Ready").result = some [((0:ℝ), (0:ℝ))] ∧
    ((save_csv renderZero (some "out.csv") true
        (AppState.mk (some [((0:ℝ), (0:ℝ))]) "Ready")).fileWritten =
      some (writeRows renderZero [((0:ℝ), (0:ℝ))]) ∧
     writeRows renderZero [((0:ℝ), (0:ℝ))] =
       ["t", "T(t)"] :: [((0:ℝ), (0:ℝ))].map
         (fun p => [renderZero p.1, renderZero p.2]) ∧
     (writeRows renderZero [((0:ℝ), (0:ℝ))]).length = [((0:ℝ), (0:ℝ))].length + 1 ∧
     parseRows parseZero (writeRows renderZero [((0:ℝ), (0:ℝ))]) =
       some [((0:ℝ), (0:ℝ))]) :=
  ⟨rfl, claim_C8 renderZero parseZero "out.csv"
    (AppState.mk (some [((0:ℝ), (0:ℝ))]) "Ready") [((0:ℝ), (0:ℝ))] rfl
    (by intro p hp; simp at hp; subst hp; simp [renderZero, parseZero])⟩

/-- C10: triggering the export with no stored result sets the warning
status, opens no dialog, writes no file, and leaves the stored result (and
everything else except the status text) unchanged. -/
theorem claim_C10 (render : ℝ → String) (pathChoice : Option String)
    (writeSucceeds : Bool) (st : AppState) (h : st.result = none) :
    save_csv render pathChoice writeSucceeds st =
      ⟨{ st with status := "Run calculation first!" }, false, none⟩ ∧
    (save_csv render pathChoice writeSucceeds st).state.result = st.result ∧
    (save_csv render pathChoice writeSucceeds st).dialogOpened = false ∧
    (save_csv render pathChoice writeSucceeds st).fileWritten = none := by
  refine ⟨?_, ?_, ?_, ?_⟩ <;> simp [save_csv, h]

/-- Witness for C10: exporting from the startup state with an empty result,
even with a path available and a write that would succeed. -/
theorem claim_C10_witness :
    (AppState.mk none "Ready").result = none ∧
    (save_csv renderZero (some "out.csv") true (AppState.mk none "Ready") =
      ⟨{ AppState.mk none "Ready" with status := "Run calculation first!" },
        false, none⟩ ∧
     (save_csv renderZero (some "out.csv") true (AppState.mk none "Ready")).state.result =
       (AppState.mk none "Ready").result ∧
     (save_csv renderZero (some "out.csv") true (AppState.mk none "Ready")).dialogOpened =
       false ∧
     (save_csv renderZero (some "out.csv") true (AppState.mk none "Ready")).fileWritten =
       none) :=
  ⟨rfl, claim_C10 renderZero (some "out.csv") true (AppState.mk none "Ready") rfl⟩

/-!
The preset cycler (lines 35-71 and 151-172).  `load_next_example` reads the
scenario at the module-global `current_example_index`, loads it into the
entry fields, and then advances the index by one modulo the list length.
The index starts at 0 (line 71); the startup call at line 250 is the 0-th
activation.
-/

/-- One preset entry of the `EXAMPLES` list (lines 35-68). -/
structure PresetExample where
  name : String
  T0 : ℝ
  T_env : ℝ
  k : ℝ
  t_max : ℝ
  points : ℕ

/-- The four preset scenarios of lines 35-68 of the source. -/
noncomputable def EXAMPLES : List PresetExample :=
  [⟨"Hot Coffee in Room", 90.0, 25.0, 0.07, 60.0, 100⟩,
   ⟨"Iced Tea Warming Up", 4.0, 30.0, 0.05, 120.0, 100⟩,
   ⟨"Forensic: Body Cooling", 37.0, 15.0, 0.03, 180.0, 200⟩,
   ⟨"Metal Quenching", 800.0, 20.0, 0.2, 30.0, 200⟩]

/-- Line 172 of the source: advance the global index, wrapping at the end
of the list. -/
noncomputable def load_next_example_step (idx : ℕ) : ℕ :=
  (idx + 1) % EXAMPLES.length

/-- The value of `current_example_index` after `m` activations of
`load_next_example`, starting from its initial value 0 (line 71). -/
noncomputable def exampleIndexAfter : ℕ → ℕ
  | 0 => 0
  | m + 1 => load_next_example_step (exampleIndexAfter m)

/-- The preset read at line 156 during the m-th activation (counting from
0): the entry of `EXAMPLES` at the index current when the activation runs. -/
noncomputable def loadedPreset (m : ℕ) : Option PresetExample :=
  EXAMPLES[exampleIndexAfter m]?

theorem EXAMPLES_length : EXAMPLES.length = 4 := rfl

theorem exampleIndexAfter_eq_mod (m : ℕ) : exampleIndexAfter m = m % 4 := by
  induction m with
  | zero => rfl
  | succ m ih =>
    simp only [exampleIndexAfter, load_next_example_step, EXAMPLES_length, ih]
    omega

/-- C9: the preset trigger cycles round-robin from index 0: the index is 0
at startup, each activation loads the preset at the current index and then
advances it by one modulo 4, so the m-th activation (counting from 0) loads
preset m mod 4. -/
theorem claim_C9 (m : ℕ) :
    EXAMPLES.length = 4 ∧
    exampleIndexAfter 0 = 0 ∧
    exampleIndexAfter (m + 1) = (exampleIndexAfter m + 1) % 4 ∧
    exampleIndexAfter m = m % 4 ∧
    loadedPreset m = EXAMPLES[m % 4]? := by
  refine ⟨EXAMPLES_length, rfl, ?_, exampleIndexAfter_eq_mod m, ?_⟩
  · simp only [exampleIndexAfter, load_next_example_step, EXAMPLES_length]
  · simp only [loadedPreset, exampleIndexAfter_eq_mod m]

end ThermalDecay
